import Mathlib

/-!
Shallow embedding of `get_tag.py`, a single-file tool that resolves the
latest version identifier of an artifact from one of several upstream
providers and prints `tag=<identifier>` when the identifier is absent from
the set of already-published container-image tags.

Modelling conventions:
  * Network I/O is represented by a `World` record of oracles: each oracle
    maps a URL to the decoded response the Python code would read out of the
    JSON body (`none` models a fetch that ultimately failed).  Providers
    return an `Except Err` result paired with the list of URLs they
    requested, in request order (the network trace).
  * The resilient fetcher `_urlopen` is modelled separately at the level of
    individual attempts: an outcome oracle maps the attempt index to the
    response body (`none` models an exception or a non-200 status).  The
    result records the body obtained, the sleep durations and the attempt
    indices, mirroring the recursive retry in lines 30-43 of the source.
  * Python exceptions are modelled by the `Err` type; a raised exception is
    an `Except.error` value.
  * Python's `s[-1]` on a list is modelled by `pyLast` (error on empty).
-/

/-- Retry budget of the resilient fetcher (`_RETRIES = 3`, line 14). -/
def _RETRIES : Nat := 3

/-- Branch separator of a repository reference (`_SEP_BRANCH = ":"`, line 15;
the one-character Python string is modelled as a character). -/
def _SEP_BRANCH : Char := ':'

/-- Base separator of a repository reference (`_SEP_BASE = "@"`, line 16). -/
def _SEP_BASE : Char := '@'

/-- Default branch selector (`_DEFAULT_BRANCH = ""`, line 17). -/
def _DEFAULT_BRANCH : String := ""

/-- Default GitHub API base (`_DEFAULT_GH_BASE`, line 18). -/
def _DEFAULT_GH_BASE : String := "https://api.github.com"

/-- Default GitLab base (`_DEFAULT_GL_BASE`, line 19). -/
def _DEFAULT_GL_BASE : String := "https://gitlab.com"

/-- Calendar granularity table (`_CR_COICES`, lines 20-27; the later
`_CR_COICES["annually"] = _CR_COICES["yearly"]` insertion is the last
association). -/
def _CR_COICES : List (String × String) :=
  [("hourly", "%Y-%m-%dT%H"), ("daily", "%Y-%m-%d"), ("weekly", "%Y-W%V"),
   ("monthly", "%Y-%m"), ("yearly", "%Y"), ("annually", "%Y")]

/-- Errors a run can raise.  `fetchError` stands for the exception that
escapes `_urlopen` once retries are exhausted; `notImplementedError` is the
`raise NotImplementedError` of `main` (line 352); `valueError` models the
tuple-unpacking failure of `_get_repository_path`; `keyError` models a
missing-dictionary-key failure; `indexError` models `list[-1]` on an empty
list. -/
inductive Err where
  | fetchError
  | upstreamError
  | notImplementedError
  | valueError
  | keyError
  | indexError
deriving DecidableEq

/-- Result of one call to the resilient fetcher: the body finally obtained
(`none` when every attempt failed and the exception propagated), the sleep
durations in order, and the attempt indices in order. -/
structure UrlopenResult where
  body : Option String
  sleeps : List Nat
  attempts : List Nat
deriving DecidableEq

/-- Recursive core of `_urlopen` (lines 30-43).  `oc i` is the outcome of
attempt number `i` (0-based): `some body` when `urllib.request.urlopen`
returns a 200 response with that body, `none` when the attempt raises or
the status is not 200.  `retries` is the `__retries` counter; the attempt
index is `_RETRIES - retries` and each failure with `retries > 0` sleeps
`30 * (_RETRIES - retries + 1)` before recursing, exactly as in the
source. -/
def urlopenAux (oc : Nat → Option String) : Nat → UrlopenResult
  | 0 =>
    match oc _RETRIES with
    | some body => ⟨some body, [], [_RETRIES]⟩
    | none => ⟨none, [], [_RETRIES]⟩
  | r + 1 =>
    match oc (_RETRIES - (r + 1)) with
    | some body => ⟨some body, [], [_RETRIES - (r + 1)]⟩
    | none =>
      let rest := urlopenAux oc r
      ⟨rest.body, 30 * (_RETRIES - (r + 1) + 1) :: rest.sleeps,
        (_RETRIES - (r + 1)) :: rest.attempts⟩

/-- The resilient fetcher `_urlopen(url)` (lines 30-43), entered with the
full retry budget.  The `url` parameter is only printed to stderr by the
source (observability), so it does not influence the result. -/
def _urlopen (url : String) (oc : Nat → Option String) : UrlopenResult :=
  urlopenAux oc _RETRIES

/-- Splits a character list at the first occurrence of `sep`, returning the
parts before and after it; `none` when `sep` does not occur.  This is the
semantics of Python's `s.split(sep, 1)` restricted to the case the callers
rely on. -/
def splitFirst (sep : Char) : List Char → Option (List Char × List Char)
  | [] => none
  | c :: cs =>
    if c = sep then
      some ([], cs)
    else
      match splitFirst sep cs with
      | none => none
      | some p => some (c :: p.1, p.2)

/-- `_get_repository_base` (lines 182-185): append `"@" + default_base`
when no `"@"` occurs, then split at the first `"@"`. -/
def _get_repository_base (repository default_base : String) : String × String :=
  let r := if _SEP_BASE ∈ repository.toList then repository
           else repository ++ "@" ++ default_base
  match splitFirst _SEP_BASE r.toList with
  | some p => (String.mk p.1, String.mk p.2)
  | none => (r, "")

/-- `_get_repository_branch` (lines 188-191): append `":" +
_DEFAULT_BRANCH` when no `":"` occurs, then split at the first `":"`. -/
def _get_repository_branch (repository : String) : String × String :=
  let r := if _SEP_BRANCH ∈ repository.toList then repository
           else repository ++ ":" ++ _DEFAULT_BRANCH
  match splitFirst _SEP_BRANCH r.toList with
  | some p => (String.mk p.1, String.mk p.2)
  | none => (r, "")

/-- `_get_repository_path` (lines 194-198): when the reference contains
exactly one `"/"`, append a trailing `"/"`; then unpack
`repository.split("/", 2)` into owner, repository and path, failing
(`ValueError`, modelled by `none`) when there are fewer than three
parts. -/
def _get_repository_path (repository : String) : Option (String × String) :=
  let r := if repository.toList.count '/' = 1 then repository ++ "/" else repository
  match splitFirst '/' r.toList with
  | none => none
  | some p =>
    match splitFirst '/' p.2 with
    | none => none
    | some q => some (String.mk p.1 ++ "/" ++ String.mk q.1, String.mk q.2)

/-- `_get_gh_repository_base` (lines 201-202). -/
def _get_gh_repository_base (repository : String) : String × String :=
  _get_repository_base repository _DEFAULT_GH_BASE

/-- `_get_gl_repository_base` (lines 266-267). -/
def _get_gl_repository_base (repository : String) : String × String :=
  _get_repository_base repository _DEFAULT_GL_BASE

/-- One file of a package-index release, as read by `get_pip_versions_2`
(lines 53-63): its `yanked` flag and its `upload_time_iso_8601` string. -/
structure PipFile where
  yanked : Bool
  upload_time_iso_8601 : String
deriving DecidableEq

/-- One entry of the GitHub commits response (`result["sha"]`, line 211). -/
structure GhCommitEntry where
  sha : String
deriving DecidableEq

/-- One entry of the GitHub tags response (`result["name"]`, line 222). -/
structure GhTagEntry where
  name : String
deriving DecidableEq

/-- One entry of the GitHub releases response (`result["tag_name"]`,
`result["draft"]`, `result["prerelease"]`, lines 233-237). -/
structure GhReleaseEntry where
  tag_name : String
  draft : Bool
  prerelease : Bool
deriving DecidableEq

/-- One entry of the GitHub deployments response (`result["sha"]`,
line 259). -/
structure GhDeploymentEntry where
  sha : String
deriving DecidableEq

/-- One entry of the GitLab commits response (`result["id"]`, line 284). -/
structure GlCommitEntry where
  id : String
deriving DecidableEq

/-- One entry of the GitLab tags response (`result["name"]`, line 295). -/
structure GlTagEntry where
  name : String
deriving DecidableEq

/-- One entry of the Docker Hub tag listing (`result["name"]` inside
`["results"]`, line 312). -/
structure DockerTagEntry where
  name : String
deriving DecidableEq

/-- Oracle for every network interaction and for the clock.  Each field
maps the requested URL to the decoded value the Python code extracts from
the JSON body; `none` models a fetch whose retries were exhausted (the
exception escaping `_urlopen`).  `nowFmt` models
`datetime.datetime.now(datetime.UTC).strftime` applied to a format
string. -/
structure World where
  pip : String → Option (List (String × List PipFile))
  npmLatest : String → Option String
  goLatest : String → Option String
  ghCommits : String → Option (List GhCommitEntry)
  ghTags : String → Option (List GhTagEntry)
  ghReleases : String → Option (List GhReleaseEntry)
  ghReleaseLatest : String → Option String
  ghDeployments : String → Option (List GhDeploymentEntry)
  glProjectId : String → Option Int
  glCommits : String → Option (List GlCommitEntry)
  glTags : String → Option (List GlTagEntry)
  docker : String → Option (List DockerTagEntry)
  nowFmt : String → String

/-- Python `xs[-1]` applied to the payload of a provider result: propagates
the provider's error, raises `IndexError` on an empty list and otherwise
returns the last element, keeping the network trace. -/
def pyLast (r : Except Err (List String) × List String) :
    Except Err String × List String :=
  match r.1 with
  | .error e => (.error e, r.2)
  | .ok l =>
    match l.getLast? with
    | some v => (.ok v, r.2)
    | none => (.error .indexError, r.2)

/-- Keep condition of `get_pip_versions_2` (lines 57-60): the release's
file list is truthy (non-empty) and its first file is not yanked. -/
def pipKeep (files : List PipFile) : Bool :=
  match files with
  | [] => false
  | f :: _ => !f.yanked

/-- Sort key of `get_pip_versions_2` (line 62): the first file's
`upload_time_iso_8601` (only evaluated on kept releases, which are
non-empty; the empty default is unreachable there). -/
def pipKey (files : List PipFile) : String :=
  match files with
  | [] => ""
  | f :: _ => f.upload_time_iso_8601

/-- Ordering used to model Python's ascending stable `sorted` on the kept
releases, comparing upload timestamps lexicographically. -/
def pipLe (a b : String × List PipFile) : Prop :=
  pipKey a.2 ≤ pipKey b.2

instance : DecidableRel pipLe :=
  fun a b => inferInstanceAs (Decidable (pipKey a.2 ≤ pipKey b.2))

instance : IsTotal (String × List PipFile) pipLe :=
  ⟨fun a b => le_total (pipKey a.2) (pipKey b.2)⟩

instance : IsTrans (String × List PipFile) pipLe :=
  ⟨fun _ _ _ h1 h2 => le_trans h1 h2⟩

/-- `get_pip_versions_2` (lines 53-63): fetch the package's release
dictionary, keep the releases whose file list is non-empty with an
un-yanked first file, and sort them ascending by the first file's upload
time.  The Python dictionary is modelled as an association list (its keys
are unique); sorting the kept pairs and projecting the names is Python's
`sorted(versions, key=...)`, whose key looks the name up in the same
dictionary. -/
def get_pip_versions_2 (w : World) (package : String) :
    Except Err (List String) × List String :=
  let url := "https://pypi.org/pypi/" ++ package ++ "/json"
  match w.pip url with
  | none => (.error .fetchError, [url])
  | some releases =>
    (.ok ((((releases.filter fun r => pipKeep r.2)).insertionSort pipLe).map
        Prod.fst), [url])

/-- `get_pip_versions` (lines 73-74): delegates to strategy 2. -/
def get_pip_versions (w : World) (package : String) :
    Except Err (List String) × List String :=
  get_pip_versions_2 w package

/-- `get_pip_version_2` (lines 81-82): last element of
`get_pip_versions_2`. -/
def get_pip_version_2 (w : World) (package : String) :
    Except Err String × List String :=
  pyLast (get_pip_versions_2 w package)

/-- `get_pip_version` (lines 99-100): delegates to strategy 2. -/
def get_pip_version (w : World) (package : String) :
    Except Err String × List String :=
  get_pip_version_2 w package

/-- `get_npm_version_1` (lines 124-127): the registry's explicit
`dist-tags.latest` value; the oracle yields that extracted string. -/
def get_npm_version_1 (w : World) (package : String) :
    Except Err String × List String :=
  let url := "https://registry.npmjs.org/" ++ package
  match w.npmLatest url with
  | none => (.error .fetchError, [url])
  | some v => (.ok v, [url])

/-- `get_npm_version` (lines 140-141): delegates to strategy 1. -/
def get_npm_version (w : World) (package : String) :
    Except Err String × List String :=
  get_npm_version_1 w package

/-- `get_go_version_1` (lines 168-171): the module proxy's `@latest`
endpoint's `Version` field. -/
def get_go_version_1 (w : World) (module : String) :
    Except Err String × List String :=
  let url := "https://proxy.golang.org/" ++ module ++ "/@latest"
  match w.goLatest url with
  | none => (.error .fetchError, [url])
  | some v => (.ok v, [url])

/-- `get_go_version` (lines 178-179): delegates to strategy 1. -/
def get_go_version (w : World) (module : String) :
    Except Err String × List String :=
  get_go_version_1 w module

/-- `get_gh_commits` (lines 205-211): decompose the reference into base,
branch and path, fetch the commits endpoint and return the `sha` fields of
the reversed response. -/
def get_gh_commits (w : World) (repository : String) :
    Except Err (List String) × List String :=
  let pb := _get_gh_repository_base repository
  let pr := _get_repository_branch pb.1
  match _get_repository_path pr.1 with
  | none => (.error .valueError, [])
  | some pp =>
    let url := pb.2 ++ "/repos/" ++ pp.1 ++ "/commits?sha=" ++ pr.2 ++
      "&path=" ++ pp.2
    match w.ghCommits url with
    | none => (.error .fetchError, [url])
    | some entries =>
      (.ok ((entries.reverse).map GhCommitEntry.sha), [url])

/-- `get_gh_commit` (lines 214-215). -/
def get_gh_commit (w : World) (repository : String) :
    Except Err String × List String :=
  pyLast (get_gh_commits w repository)

/-- `get_gh_tags` (lines 218-222). -/
def get_gh_tags (w : World) (repository : String) :
    Except Err (List String) × List String :=
  let pb := _get_gh_repository_base repository
  let url := pb.2 ++ "/repos/" ++ pb.1 ++ "/tags"
  match w.ghTags url with
  | none => (.error .fetchError, [url])
  | some entries =>
    (.ok ((entries.reverse).map GhTagEntry.name), [url])

/-- `get_gh_tag` (lines 225-226). -/
def get_gh_tag (w : World) (repository : String) :
    Except Err String × List String :=
  pyLast (get_gh_tags w repository)

/-- `get_gh_releases_1` (lines 229-237): fetch the releases endpoint and
return the `tag_name` fields of the entries of the reversed response that
are neither drafts nor prereleases (the comprehension filters while it
walks the reversed list). -/
def get_gh_releases_1 (w : World) (repository : String) :
    Except Err (List String) × List String :=
  let pb := _get_gh_repository_base repository
  let url := pb.2 ++ "/repos/" ++ pb.1 ++ "/releases"
  match w.ghReleases url with
  | none => (.error .fetchError, [url])
  | some entries =>
    (.ok (((entries.reverse).filter fun r => !r.draft && !r.prerelease).map
        GhReleaseEntry.tag_name), [url])

/-- `get_gh_release_1` (lines 240-241). -/
def get_gh_release_1 (w : World) (repository : String) :
    Except Err String × List String :=
  pyLast (get_gh_releases_1 w repository)

/-- `get_gh_release_2` (lines 244-248): the `releases/latest` endpoint's
`tag_name` field. -/
def get_gh_release_2 (w : World) (repository : String) :
    Except Err String × List String :=
  let pb := _get_gh_repository_base repository
  let url := pb.2 ++ "/repos/" ++ pb.1 ++ "/releases/latest"
  match w.ghReleaseLatest url with
  | none => (.error .fetchError, [url])
  | some v => (.ok v, [url])

/-- `get_gh_release` (lines 251-252): delegates to strategy 2. -/
def get_gh_release (w : World) (repository : String) :
    Except Err String × List String :=
  get_gh_release_2 w repository

/-- `get_gh_deployments` (lines 255-259). -/
def get_gh_deployments (w : World) (repository : String) :
    Except Err (List String) × List String :=
  let pb := _get_gh_repository_base repository
  let url := pb.2 ++ "/repos/" ++ pb.1 ++ "/deployments"
  match w.ghDeployments url with
  | none => (.error .fetchError, [url])
  | some entries =>
    (.ok ((entries.reverse).map GhDeploymentEntry.sha), [url])

/-- `get_gh_deployment` (lines 262-263). -/
def get_gh_deployment (w : World) (repository : String) :
    Except Err String × List String :=
  pyLast (get_gh_deployments w repository)

/-- `_get_gl_repository` (lines 270-276): an all-digits reference is the
numeric project id itself; otherwise the path-escaped reference is resolved
through the projects endpoint's `id` field. -/
def _get_gl_repository (w : World) (repository base : String) :
    Except Err Int × List String :=
  if repository.toList ≠ [] ∧ repository.toList.all Char.isDigit then
    (.ok (repository.toNat?.getD 0 : Int), [])
  else
    let url := base ++ "/api/v4/projects/" ++ repository.replace "/" "%2F"
    match w.glProjectId url with
    | none => (.error .fetchError, [url])
    | some pid => (.ok pid, [url])

/-- `get_gl_commits` (lines 279-284). -/
def get_gl_commits (w : World) (repository : String) :
    Except Err (List String) × List String :=
  let pb := _get_gl_repository_base repository
  let pr := _get_repository_branch pb.1
  let res := _get_gl_repository w pr.1 pb.2
  match res.1 with
  | .error e => (.error e, res.2)
  | .ok pid =>
    let url := pb.2 ++ "/api/v4/projects/" ++ toString pid ++
      "/repository/commits?ref_name=" ++ pr.2
    match w.glCommits url with
    | none => (.error .fetchError, res.2 ++ [url])
    | some entries =>
      (.ok ((entries.reverse).map GlCommitEntry.id), res.2 ++ [url])

/-- `get_gl_commit` (lines 287-288). -/
def get_gl_commit (w : World) (repository : String) :
    Except Err String × List String :=
  pyLast (get_gl_commits w repository)

/-- `get_gl_tags` (lines 291-295). -/
def get_gl_tags (w : World) (repository : String) :
    Except Err (List String) × List String :=
  let pb := _get_gl_repository_base repository
  let res := _get_gl_repository w pb.1 pb.2
  match res.1 with
  | .error e => (.error e, res.2)
  | .ok pid =>
    let url := pb.2 ++ "/api/v4/projects/" ++ toString pid ++
      "/repository/tags?order_by=version"
    match w.glTags url with
    | none => (.error .fetchError, res.2 ++ [url])
    | some entries =>
      (.ok ((entries.reverse).map GlTagEntry.name), res.2 ++ [url])

/-- `get_gl_tag` (lines 298-299). -/
def get_gl_tag (w : World) (repository : String) :
    Except Err String × List String :=
  pyLast (get_gl_tags w repository)

/-- `get_cron_tag` (lines 302-304): format the current UTC instant with
the format string of the requested granularity; an unknown granularity is
a `KeyError`.  No network call is made. -/
def get_cron_tag (w : World) (cron : String) :
    Except Err String × List String :=
  match _CR_COICES.lookup cron with
  | some fmt => (.ok (w.nowFmt fmt), [])
  | none => (.error .keyError, [])

/-- `get_docker_tags` (lines 307-312): the empty reference short-circuits
to an empty list without any fetch; otherwise the single tag-listing page
is fetched and the `name` fields of its `results` array are returned in
response order. -/
def get_docker_tags (w : World) (repository : String) :
    Except Err (List String) × List String :=
  if repository = "" then
    (.ok [], [])
  else
    let url := "https://hub.docker.com/v2/repositories/" ++ repository ++ "/tags"
    match w.docker url with
    | none => (.error .fetchError, [url])
    | some results =>
      (.ok (results.map DockerTagEntry.name), [url])

/-- Parsed command line of `main` (lines 316-329).  Every provider flag is
a string; the empty string models both an unset flag (`None`) and an empty
value, matching Python's truthiness test `if args.pip:` and friends. -/
structure Args where
  docker_tag : String
  pip : String
  npm : String
  go : String
  gh_commit : String
  gh_tag : String
  gh_release : String
  gh_deployment : String
  gl_commit : String
  gl_tag : String
  cr : String
deriving DecidableEq

/-- The provider dispatch of `main` (lines 331-352): the first truthy flag
selects its provider; with no truthy flag the run raises
`NotImplementedError`. -/
def resolveTag (w : World) (args : Args) : Except Err String × List String :=
  if args.pip ≠ "" then get_pip_version w args.pip
  else if args.npm ≠ "" then get_npm_version w args.npm
  else if args.go ≠ "" then get_go_version w args.go
  else if args.gh_commit ≠ "" then get_gh_commit w args.gh_commit
  else if args.gh_tag ≠ "" then get_gh_tag w args.gh_tag
  else if args.gh_release ≠ "" then get_gh_release w args.gh_release
  else if args.gh_deployment ≠ "" then get_gh_deployment w args.gh_deployment
  else if args.gl_commit ≠ "" then get_gl_commit w args.gl_commit
  else if args.gl_tag ≠ "" then get_gl_tag w args.gl_tag
  else if args.cr ≠ "" then get_cron_tag w args.cr
  else (.error .notImplementedError, [])

/-- `main` (lines 315-354) after argument parsing: fetch the published tag
set first (line 330), then resolve the provider's identifier, then print
`tag=<identifier>` exactly when the identifier is not among the published
tags (lines 353-354).  The payload is the printed stdout line (`none` =
nothing printed); the second component is the network trace. -/
def mainRun (w : World) (args : Args) : Except Err (Option String) × List String :=
  let td := get_docker_tags w args.docker_tag
  match td.1 with
  | .error e => (.error e, td.2)
  | .ok tags =>
    let tr := resolveTag w args
    match tr.1 with
    | .error e => (.error e, td.2 ++ tr.2)
    | .ok tag =>
      (.ok (if tag ∈ tags then none else some ("tag=" ++ tag)),
        td.2 ++ tr.2)

/-- No provider selector is active: every provider flag is falsy (unset or
empty), so `main` reaches the final `raise NotImplementedError` branch. -/
def noProviderArgs (args : Args) : Prop :=
  args.pip = "" ∧ args.npm = "" ∧ args.go = "" ∧ args.gh_commit = "" ∧
  args.gh_tag = "" ∧ args.gh_release = "" ∧ args.gh_deployment = "" ∧
  args.gl_commit = "" ∧ args.gl_tag = "" ∧ args.cr = ""

/-- A concrete package-index payload: one yanked release followed by two
kept releases with increasing upload timestamps. -/
def demoReleases : List (String × List PipFile) :=
  [("0.9.0", [⟨true, "2023-12-01"⟩]),
   ("1.0.0", [⟨false, "2024-01-01"⟩]),
   ("1.1.0", [⟨false, "2024-02-01"⟩])]

/-- A concrete world used to instantiate the universally quantified
theorems: every endpoint returns the same small fixed page regardless of
the URL. -/
def demoWorld : World where
  pip := fun _ => some demoReleases
  npmLatest := fun _ => some "9.9.9"
  goLatest := fun _ => some "v1.2.3"
  ghCommits := fun _ => some [⟨"sha2"⟩, ⟨"sha1"⟩]
  ghTags := fun _ => some [⟨"t2"⟩, ⟨"t1"⟩]
  ghReleases := fun _ => some [⟨"v2", false, false⟩, ⟨"v1", false, true⟩]
  ghReleaseLatest := fun _ => some "v2"
  ghDeployments := fun _ => some [⟨"d2"⟩, ⟨"d1"⟩]
  glProjectId := fun _ => some 42
  glCommits := fun _ => some [⟨"c2"⟩, ⟨"c1"⟩]
  glTags := fun _ => some [⟨"g2"⟩, ⟨"g1"⟩]
  docker := fun _ => some [⟨"latest"⟩, ⟨"1.0.0"⟩]
  nowFmt := fun _ => "2024-03-05"

/-- A concrete invocation with a non-empty artifact repository and no
provider flag set. -/
def argsNoProvider : Args :=
  ⟨"library/x", "", "", "", "", "", "", "", "", "", ""⟩

/-- A concrete invocation selecting the node-package-index provider. -/
def argsNpm : Args :=
  ⟨"library/x", "", "npmpkg", "", "", "", "", "", "", "", ""⟩

theorem toList_append (s t : String) : (s ++ t).toList = s.toList ++ t.toList := by
  cases s; cases t; rfl

theorem string_eq_of_toList {s t : String} (h : s.toList = t.toList) : s = t :=
  String.ext h

theorem splitFirst_append (sep : Char) (a b : List Char) (ha : sep ∉ a) :
    splitFirst sep (a ++ sep :: b) = some (a, b) := by
  induction a with
  | nil => simp [splitFirst]
  | cons c cs ih =>
    have hc : ¬ c = sep := fun e => ha (by simp [e])
    have hcs : sep ∉ cs := fun m => ha (List.mem_cons_of_mem _ m)
    simp [splitFirst, hc, ih hcs]

theorem count_one_decomp (sep : Char) (l : List Char) (h : l.count sep = 1) :
    ∃ a b, l = a ++ sep :: b ∧ sep ∉ a ∧ sep ∉ b := by
  induction l with
  | nil => simp at h
  | cons c cs ih =>
    by_cases hc : c = sep
    · subst hc
      have h0 : cs.count c = 0 := by
        rw [List.count_cons_self] at h
        omega
      exact ⟨[], cs, rfl, by simp, by rwa [← List.count_eq_zero]⟩
    · have h' : cs.count sep = 1 := by
        rw [List.count_cons] at h
        simpa [hc] using h
      obtain ⟨a, b, e, hna, hnb⟩ := ih h'
      refine ⟨c :: a, b, by simp [e], ?_, hnb⟩
      intro m
      rcases List.mem_cons.mp m with h1 | h2
      · exact hc h1.symm
      · exact hna h2

theorem repository_base_no_sep (repo d : String) (h : _SEP_BASE ∉ repo.toList) :
    _get_repository_base repo d = (repo, d) := by
  have e : (repo ++ "@" ++ d).toList = repo.toList ++ _SEP_BASE :: d.toList := by
    rw [toList_append, toList_append]
    simp [_SEP_BASE]
  simp only [_get_repository_base, if_neg h]
  rw [e, splitFirst_append _ _ _ h]
  rfl

theorem repository_branch_no_sep (repo : String) (h : _SEP_BRANCH ∉ repo.toList) :
    _get_repository_branch repo = (repo, "") := by
  have e : (repo ++ ":" ++ _DEFAULT_BRANCH).toList = repo.toList ++ _SEP_BRANCH :: [] := by
    rw [toList_append, toList_append]
    simp [_SEP_BRANCH, _DEFAULT_BRANCH]
  simp only [_get_repository_branch, if_neg h]
  rw [e, splitFirst_append _ _ _ h]
  rfl

theorem repository_path_one_sep (s : String) (h : s.toList.count '/' = 1) :
    _get_repository_path s = some (s, "") := by
  obtain ⟨a, b, e, hna, hnb⟩ := count_one_decomp '/' s.toList h
  have e1 : (s ++ "/").toList = a ++ '/' :: (b ++ ['/']) := by
    rw [toList_append, e]
    simp
  have hs : String.mk a ++ "/" ++ String.mk b = s := by
    apply string_eq_of_toList
    rw [toList_append, toList_append, e]
    show a ++ ['/'] ++ b = a ++ '/' :: b
    simp
  simp only [_get_repository_path, if_pos h, e1, splitFirst_append _ _ _ hna,
    splitFirst_append _ _ _ hnb, hs]

theorem nodup_fst_unique {α β : Type} {L : List (α × β)} (h : (L.map Prod.fst).Nodup)
    {a : α} {b c : β} (h1 : (a, b) ∈ L) (h2 : (a, c) ∈ L) : b = c := by
  induction L with
  | nil => cases h1
  | cons p ps ih =>
    rw [List.map_cons, List.nodup_cons] at h
    rcases List.mem_cons.mp h1 with e1 | m1
    · rcases List.mem_cons.mp h2 with e2 | m2
      · exact congrArg Prod.snd (e1.trans e2.symm)
      · exfalso
        apply h.1
        rw [← e1]
        exact List.mem_map.mpr ⟨(a, c), m2, rfl⟩
    · rcases List.mem_cons.mp h2 with e2 | m2
      · exfalso
        apply h.1
        rw [← e2]
        exact List.mem_map.mpr ⟨(a, b), m1, rfl⟩
      · exact ih h.2 m1 m2

/-- Claim C3: for every URL, a fetch whose underlying request fails on the
first two attempts and succeeds on the third returns the successful
response body, having slept exactly twice, 30 then 60 time units, in that
order. -/
theorem fetch_two_failures_then_success (url : String)
    (oc : Nat → Option String) (body : String)
    (h0 : oc 0 = none) (h1 : oc 1 = none) (h2 : oc 2 = some body) :
    (_urlopen url oc).body = some body ∧ (_urlopen url oc).sleeps = [30, 60] := by
  have e : _urlopen url oc = ⟨some body, [30, 60], [0, 1, 2]⟩ := by
    show urlopenAux oc 3 = _
    rw [show (3 : Nat) = 2 + 1 from rfl]
    simp only [urlopenAux, _RETRIES]
    norm_num
    rw [h0, h1, h2]
  rw [e]
  exact ⟨rfl, rfl⟩

theorem fetch_two_failures_then_success_witness :
    (_urlopen "https://example.org"
      (fun i => if i < 2 then none else some "payload")).body = some "payload" ∧
    (_urlopen "https://example.org"
      (fun i => if i < 2 then none else some "payload")).sleeps = [30, 60] :=
  fetch_two_failures_then_success "https://example.org"
    (fun i => if i < 2 then none else some "payload") "payload" rfl rfl rfl

/-- Claim C7: for every URL, when every attempt fails, the fetcher performs
the first attempt plus exactly 3 retries (attempt indices 0, 1, 2, 3),
sleeping 30, 60 and 90 between attempts, and then propagates the final
failure to the caller (no body value is returned: the exception modelled by
`body = none` escapes, surfacing as `FetchError`). -/
theorem fetch_all_attempts_fail (url : String) (oc : Nat → Option String)
    (h : ∀ i, oc i = none) :
    _urlopen url oc = ⟨none, [30, 60, 90], [0, 1, 2, 3]⟩ := by
  show urlopenAux oc 3 = _
  rw [show (3 : Nat) = 2 + 1 from rfl]
  simp only [urlopenAux, _RETRIES]
  norm_num
  rw [h 0, h 1, h 2, h 3]

theorem fetch_all_attempts_fail_witness :
    _urlopen "https://example.org" (fun _ => none) =
      ⟨none, [30, 60, 90], [0, 1, 2, 3]⟩ :=
  fetch_all_attempts_fail "https://example.org" (fun _ => none) (fun _ => rfl)

/-- Claim C8: `publishedTags` on the empty artifact-repository string
returns the empty tag list successfully and performs no network call (the
trace is empty), for every world. -/
theorem docker_tags_empty_repository (w : World) :
    get_docker_tags w "" = (Except.ok [], []) :=
  rfl

/-- Claim C9: a repository reference containing exactly one '/' decomposes
into the unchanged "owner/repo" pair together with an empty path
component. -/
theorem repository_path_single_separator (s : String)
    (h : s.toList.count '/' = 1) :
    _get_repository_path s = some (s, "") :=
  repository_path_one_sep s h

theorem repository_path_single_separator_witness :
    _get_repository_path "owner/repo" = some ("owner/repo", "") :=
  repository_path_single_separator "owner/repo" (by decide)

/-- Claim C5: for every GitHub list-endpoint response delivered in
newest-first order, the commits, tags and deployments providers return
exactly the reverse of the (projected) response list, and each provider's
latest — the last element of the returned list — is the identifier of the
first entry of the original response. -/
theorem gh_lists_reverse_response (w : World) (repo : String)
    (cs : List GhCommitEntry) (ts : List GhTagEntry)
    (ds : List GhDeploymentEntry)
    (hat : _SEP_BASE ∉ repo.toList) (hcol : _SEP_BRANCH ∉ repo.toList)
    (hsl : repo.toList.count '/' = 1)
    (hc : ∀ u, w.ghCommits u = some cs)
    (ht : ∀ u, w.ghTags u = some ts)
    (hd : ∀ u, w.ghDeployments u = some ds) :
    (get_gh_commits w repo).1 = .ok ((cs.map GhCommitEntry.sha).reverse)
    ∧ (get_gh_tags w repo).1 = .ok ((ts.map GhTagEntry.name).reverse)
    ∧ (get_gh_deployments w repo).1 = .ok ((ds.map GhDeploymentEntry.sha).reverse)
    ∧ (∀ c rest, cs = c :: rest → (get_gh_commit w repo).1 = .ok c.sha)
    ∧ (∀ t rest, ts = t :: rest → (get_gh_tag w repo).1 = .ok t.name)
    ∧ (∀ d rest, ds = d :: rest → (get_gh_deployment w repo).1 = .ok d.sha) := by
  have hbase : _get_gh_repository_base repo = (repo, _DEFAULT_GH_BASE) :=
    repository_base_no_sep repo _DEFAULT_GH_BASE hat
  have hbranch : _get_repository_branch repo = (repo, "") :=
    repository_branch_no_sep repo hcol
  have hpath : _get_repository_path repo = some (repo, "") :=
    repository_path_one_sep repo hsl
  refine ⟨?_, ?_, ?_, ?_, ?_, ?_⟩
  · simp [get_gh_commits, hbase, hbranch, hpath, hc, List.map_reverse]
  · simp [get_gh_tags, hbase, ht, List.map_reverse]
  · simp [get_gh_deployments, hbase, hd, List.map_reverse]
  · intro c rest e
    subst e
    simp [get_gh_commit, pyLast, get_gh_commits, hbase, hbranch, hpath, hc,
      List.map_reverse, List.getLast?_reverse]
  · intro t rest e
    subst e
    simp [get_gh_tag, pyLast, get_gh_tags, hbase, ht,
      List.map_reverse, List.getLast?_reverse]
  · intro d rest e
    subst e
    simp [get_gh_deployment, pyLast, get_gh_deployments, hbase, hd,
      List.map_reverse, List.getLast?_reverse]

theorem gh_lists_reverse_response_witness :
    (get_gh_commits demoWorld "o/r").1 = .ok ["sha1", "sha2"]
    ∧ (get_gh_tags demoWorld "o/r").1 = .ok ["t1", "t2"]
    ∧ (get_gh_deployments demoWorld "o/r").1 = .ok ["d1", "d2"]
    ∧ (get_gh_commit demoWorld "o/r").1 = .ok "sha2"
    ∧ (get_gh_tag demoWorld "o/r").1 = .ok "t2"
    ∧ (get_gh_deployment demoWorld "o/r").1 = .ok "d2" := by
  have h := gh_lists_reverse_response demoWorld "o/r"
    [⟨"sha2"⟩, ⟨"sha1"⟩] [⟨"t2"⟩, ⟨"t1"⟩] [⟨"d2"⟩, ⟨"d1"⟩]
    (by decide) (by decide) (by decide)
    (fun _ => rfl) (fun _ => rfl) (fun _ => rfl)
  exact ⟨h.1, h.2.1, h.2.2.1, h.2.2.2.1 _ _ rfl, h.2.2.2.2.1 _ _ rfl,
    h.2.2.2.2.2 _ _ rfl⟩

/-- Claim C6: the releases provider removes draft and prerelease entries
before the reversal step — its result equals the reverse of the filtered
newest-first response — and on the concrete newest-first response
[(v2, released), (v1, prerelease)] its latest is "v2". -/
theorem gh_releases_filter_before_reverse (w : World) (repo : String)
    (entries : List GhReleaseEntry)
    (hat : _SEP_BASE ∉ repo.toList)
    (hf : ∀ u, w.ghReleases u = some entries) :
    (get_gh_releases_1 w repo).1 =
      .ok (((entries.filter fun r => !r.draft && !r.prerelease).map
        GhReleaseEntry.tag_name).reverse)
    ∧ (entries = [⟨"v2", false, false⟩, ⟨"v1", false, true⟩] →
        (get_gh_release_1 w repo).1 = .ok "v2") := by
  have hbase : _get_gh_repository_base repo = (repo, _DEFAULT_GH_BASE) :=
    repository_base_no_sep repo _DEFAULT_GH_BASE hat
  constructor
  · simp [get_gh_releases_1, hbase, hf, List.filter_reverse, List.map_reverse]
  · intro e
    subst e
    simp [get_gh_release_1, pyLast, get_gh_releases_1, hbase, hf,
      List.filter_reverse, List.map_reverse, List.getLast?_reverse]

theorem gh_releases_filter_before_reverse_witness :
    (get_gh_releases_1 demoWorld "o/r").1 = .ok ["v2"]
    ∧ (get_gh_release_1 demoWorld "o/r").1 = .ok "v2" := by
  have h := gh_releases_filter_before_reverse demoWorld "o/r"
    [⟨"v2", false, false⟩, ⟨"v1", false, true⟩] (by decide) (fun _ => rfl)
  exact ⟨h.1, h.2 rfl⟩

/-- Claim C4: for every package-index response payload (with the unique
keys a JSON-decoded dictionary guarantees), every release marked yanked
(first file yanked) is excluded from the returned version list — as is
every release with an empty file list, which the code's truthiness test
also drops — and the returned list consists of exactly the remaining
releases ordered ascending by upload timestamp; the provider's latest is
the last element of that sorted list. -/
theorem pip_versions_exclude_yanked_sorted (w : World) (package : String)
    (releases : List (String × List PipFile))
    (hnd : (releases.map Prod.fst).Nodup)
    (hf : w.pip ("https://pypi.org/pypi/" ++ package ++ "/json") = some releases) :
    ∃ pairs : List (String × List PipFile),
      (get_pip_versions_2 w package).1 = .ok (pairs.map Prod.fst)
      ∧ pairs.Perm (releases.filter fun r => pipKeep r.2)
      ∧ pairs.Pairwise pipLe
      ∧ (∀ name f fs, (name, f :: fs) ∈ releases → f.yanked = true →
          name ∉ pairs.map Prod.fst)
      ∧ (∀ name, (name, ([] : List PipFile)) ∈ releases →
          name ∉ pairs.map Prod.fst)
      ∧ ((get_pip_version_2 w package).1 =
          match (pairs.map Prod.fst).getLast? with
          | some v => .ok v
          | none => .error .indexError) := by
  refine ⟨(releases.filter fun r => pipKeep r.2).insertionSort pipLe,
    ?_, ?_, ?_, ?_, ?_, ?_⟩
  · simp [get_pip_versions_2, hf]
  · exact List.perm_insertionSort pipLe _
  · exact List.sorted_insertionSort pipLe _
  · intro name f fs hmem hy hin
    rw [List.mem_map] at hin
    obtain ⟨p, hp, hpe⟩ := hin
    have hp2 := List.mem_insertionSort pipLe |>.mp hp
    rw [List.mem_filter] at hp2
    have hp1 : (name, p.2) ∈ releases := by
      rw [← hpe]
      exact Prod.mk.eta ▸ hp2.1
    have e2 : p.2 = f :: fs := nodup_fst_unique hnd hp1 hmem
    rw [e2] at hp2
    simp [pipKeep, hy] at hp2
  · intro name hmem hin
    rw [List.mem_map] at hin
    obtain ⟨p, hp, hpe⟩ := hin
    have hp2 := List.mem_insertionSort pipLe |>.mp hp
    rw [List.mem_filter] at hp2
    have hp1 : (name, p.2) ∈ releases := by
      rw [← hpe]
      exact Prod.mk.eta ▸ hp2.1
    have e2 : p.2 = [] := nodup_fst_unique hnd hp1 hmem
    rw [e2] at hp2
    simp [pipKeep] at hp2
  · cases hL : ((((releases.filter fun r => pipKeep r.2).insertionSort
        pipLe)).map Prod.fst).getLast? with
    | none => simp [get_pip_version_2, pyLast, get_pip_versions_2, hf, hL]
    | some v => simp [get_pip_version_2, pyLast, get_pip_versions_2, hf, hL]

theorem pip_versions_exclude_yanked_sorted_witness :
    ∃ pairs : List (String × List PipFile),
      (get_pip_versions_2 demoWorld "pkg").1 = .ok (pairs.map Prod.fst)
      ∧ pairs.Perm (demoReleases.filter fun r => pipKeep r.2)
      ∧ pairs.Pairwise pipLe
      ∧ (∀ name f fs, (name, f :: fs) ∈ demoReleases → f.yanked = true →
          name ∉ pairs.map Prod.fst)
      ∧ (∀ name, (name, ([] : List PipFile)) ∈ demoReleases →
          name ∉ pairs.map Prod.fst)
      ∧ ((get_pip_version_2 demoWorld "pkg").1 =
          match (pairs.map Prod.fst).getLast? with
          | some v => .ok v
          | none => .error .indexError) :=
  pip_versions_exclude_yanked_sorted demoWorld "pkg" demoReleases
    (by decide) rfl

/-- Claim C1, as stated, is false: with no provider flag set and a
non-empty artifact repository, the run does fail with the configuration
error (`NotImplementedError`), but the published-tags HTTP request has
already been issued before the error is raised — the network trace of the
failing run is non-empty, containing the tag-listing URL. -/
theorem main_zero_providers_counterexample :
    mainRun demoWorld argsNoProvider =
      (.error .notImplementedError,
        ["https://hub.docker.com/v2/repositories/library/x/tags"])
    ∧ (mainRun demoWorld argsNoProvider).2 ≠ [] := by
  constructor
  · rfl
  · intro h
    have e : (mainRun demoWorld argsNoProvider).2 =
        ["https://hub.docker.com/v2/repositories/library/x/tags"] := rfl
    rw [e] at h
    cases h

/-- Claim C1 (amended): if zero provider selectors are active, the run
fails with the configuration error (`NotImplementedError`) and performs no
provider network call, but the published-tags fetch is performed first, so
the run's network trace is exactly the docker tag-listing trace; only when
the artifact repository is the empty string is no request at all issued
before the error. -/
theorem main_zero_providers (w : World) (args : Args) (tags : List String)
    (hnp : noProviderArgs args)
    (hd : (get_docker_tags w args.docker_tag).1 = .ok tags) :
    mainRun w args =
      (.error .notImplementedError, (get_docker_tags w args.docker_tag).2)
    ∧ (args.docker_tag = "" →
        mainRun w args = (.error .notImplementedError, [])) := by
  obtain ⟨h1, h2, h3, h4, h5, h6, h7, h8, h9, h10⟩ := hnp
  have hres : resolveTag w args = (.error .notImplementedError, []) := by
    simp [resolveTag, h1, h2, h3, h4, h5, h6, h7, h8, h9, h10]
  constructor
  · simp [mainRun, hd, hres]
  · intro he
    have hdock : get_docker_tags w args.docker_tag = (.ok [], []) := by
      rw [he]
      rfl
    simp [mainRun, hdock, hres]

theorem main_zero_providers_witness :
    mainRun demoWorld argsNoProvider =
      (.error .notImplementedError,
        (get_docker_tags demoWorld argsNoProvider.docker_tag).2)
    ∧ (argsNoProvider.docker_tag = "" →
        mainRun demoWorld argsNoProvider = (.error .notImplementedError, [])) :=
  main_zero_providers demoWorld argsNoProvider ["latest", "1.0.0"]
    ⟨rfl, rfl, rfl, rfl, rfl, rfl, rfl, rfl, rfl, rfl⟩ rfl

/-- Claim C2: whenever the published-tags fetch and the provider
resolution both succeed, the program prints exactly the single line
`tag=<identifier>` when the identifier is absent from the published tag
set, and prints nothing when it is already present. -/
theorem main_prints_iff_novel (w : World) (args : Args)
    (tags : List String) (tag : String)
    (hd : (get_docker_tags w args.docker_tag).1 = .ok tags)
    (hr : (resolveTag w args).1 = .ok tag) :
    (mainRun w args).1 =
      .ok (if tag ∈ tags then none else some ("tag=" ++ tag)) := by
  simp [mainRun, hd, hr]

theorem main_prints_iff_novel_witness :
    (mainRun demoWorld argsNpm).1 =
      .ok (if "9.9.9" ∈ ["latest", "1.0.0"] then none
           else some ("tag=" ++ "9.9.9")) :=
  main_prints_iff_novel demoWorld argsNpm ["latest", "1.0.0"] "9.9.9" rfl rfl

/-- Claim C10: for every non-empty artifact repository, `publishedTags`
issues exactly one HTTP GET (the trace is the single tag-listing URL) and
returns exactly the `name` fields of that single response's `results`
entries in response order; consequently, a resolved identifier that is not
among that one page's names is reported as novel by `main`, even if it
were published on a page the code never requests. -/
theorem docker_tags_single_page (w : World) (repository : String)
    (entries : List DockerTagEntry) (hne : repository ≠ "")
    (hf : w.docker ("https://hub.docker.com/v2/repositories/" ++ repository
      ++ "/tags") = some entries) :
    get_docker_tags w repository =
      (.ok (entries.map DockerTagEntry.name),
        ["https://hub.docker.com/v2/repositories/" ++ repository ++ "/tags"])
    ∧ (∀ args tag, args.docker_tag = repository →
        (resolveTag w args).1 = .ok tag →
        tag ∉ entries.map DockerTagEntry.name →
        (mainRun w args).1 = .ok (some ("tag=" ++ tag))) := by
  have h1 : get_docker_tags w repository =
      (.ok (entries.map DockerTagEntry.name),
        ["https://hub.docker.com/v2/repositories/" ++ repository ++ "/tags"]) := by
    simp [get_docker_tags, hne, hf]
  refine ⟨h1, ?_⟩
  intro args tag ha hr ht
  have hd : (get_docker_tags w args.docker_tag).1 =
      .ok (entries.map DockerTagEntry.name) := by
    rw [ha, h1]
  simp [mainRun, hd, hr, ht]

theorem docker_tags_single_page_witness :
    get_docker_tags demoWorld "library/x" =
      (.ok ["latest", "1.0.0"],
        ["https://hub.docker.com/v2/repositories/library/x/tags"])
    ∧ (mainRun demoWorld argsNpm).1 = .ok (some ("tag=" ++ "9.9.9")) := by
  have h := docker_tags_single_page demoWorld "library/x"
    [⟨"latest"⟩, ⟨"1.0.0"⟩] (by decide) rfl
  exact ⟨h.1, h.2 argsNpm "9.9.9" rfl rfl (by decide)⟩
